import Mathlib

/-!
Verification of the deebee versioned file store against its specification.

The development shallowly embeds the Go sources:
  - `checksum/algorithms.go` (FNV-128a accumulator and marshaling),
  - the `store` package (`Open`, options, `Reader`/`reader.Read`,
    `validateChecksum`, `DeleteVersion`, metrics),
  - the older `deebee` package (`Open`, `setFileIntegrityChecker`,
    `nextVersionFilename`).
Bytes are modelled as `Nat` (values < 256), byte strings as `List Nat`,
machine integers as `Nat` with explicit `% 2 ^ w` where overflow matters,
fallible operations as `Except`/`Option`.
-/

namespace Deebee

/-- A byte, modelled as a natural number (< 256 in every use). -/
abbrev Byte := Nat

/-- ASCII bytes of a string literal, as Go's `[]byte(s)` for ASCII content. -/
def strBytes (s : String) : List Byte :=
  s.toList.map Char.toNat

/-! ## checksum/algorithms.go: the FNV-128a algorithm

Go's `fnv.New128a()` implements FNV-1a with a 128-bit state.  The embedding
keeps the state as a `Nat` reduced mod `2 ^ 128` after each multiplication,
exactly as the two-word arithmetic in `hash/fnv` does. -/

/-- The 128-bit FNV prime `2^88 + 2^8 + 0x3b`. -/
def fnvPrime128 : Nat := 0x0000000001000000000000000000013B

/-- The 128-bit FNV-1a offset basis (initial state of a fresh Sum). -/
def fnvOffset128a : Nat := 0x6c62272e07bb014262b821756295c58d

/-- One step of FNV-1a: xor the byte in, then multiply by the prime mod 2^128. -/
def fnv128aStep (h : Nat) (b : Byte) : Nat :=
  ((h ^^^ b) * fnvPrime128) % 2 ^ 128

/-- `Sum.Write`: feed a byte slice into the accumulator state. -/
def fnv128aUpdate (h : Nat) (bs : List Byte) : Nat :=
  bs.foldl fnv128aStep h

/-- `hashSum.Marshal` for fnv128a: `Sum(nil)` appends the 16 state bytes
big-endian (as `binary.BigEndian` does for the two 64-bit words). -/
def fnv128aMarshal (h : Nat) : List Byte :=
  (List.range 16).map (fun i => h / 256 ^ (15 - i) % 256)

/-- The digest Go's reader recomputes over the bytes it has read, when the
active algorithm is fnv128a: a fresh Sum updated with the bytes, marshaled. -/
def fnv128aDigest (bs : List Byte) : List Byte :=
  fnv128aMarshal (fnv128aUpdate fnvOffset128a bs)

/-- One hex digit character, lowercase, as `fmt.Sprintf("%x")` renders it. -/
def hexDigitChar (n : Nat) : Char :=
  if n < 10 then Char.ofNat (48 + n) else Char.ofNat (87 + n)

/-- Hex encoding of a byte slice, as Go's `fmt.Sprintf("%x", bytes)`. -/
def hexEncode (bs : List Byte) : String :=
  String.mk (bs.foldr (fun b acc => hexDigitChar (b / 16) :: hexDigitChar (b % 16) :: acc) [])

/-! ## store package: versions, checksum comparison and the streaming reader -/

/-- `store.Version`: identified by its time, carries a byte size.  `time.Time`
is modelled as a `Nat` instant (`Equal` is instant equality). -/
structure Version where
  time : Nat
  size : Nat
deriving DecidableEq

/-- Errors surfaced by the store's open/delete paths. -/
inductive StoreErr where
  | versionNotFound (msg : String)
deriving DecidableEq

/-- Errors (and the end-of-stream signal) returned by `reader.Read`,
modelling the non-nil values of Go's second return. -/
inductive ReadErr where
  | eof
  | checksumReadError
  | checksumMismatch
deriving DecidableEq

/-- The ASCII bytes of the literal "ALTERED". -/
def alteredBytes : List Byte := strBytes "ALTERED"

/-- The default `areChecksumsEqual` installed by `store.Open`: byte equality,
except that a stored value of "ALTERED" (with optional trailing newline) is
accepted unconditionally. -/
def areChecksumsEqualDefault (expected actual : List Byte) : Bool :=
  expected == actual || expected == alteredBytes ||
    expected == alteredBytes ++ [10] || expected == alteredBytes ++ [13, 10]

/-- The comparison installed by the `NoIntegrityCheck` option: always true. -/
def areChecksumsEqualDisabled (_expected _actual : List Byte) : Bool :=
  true

/-- State of one `store.reader`: the data file's bytes not yet returned, the
bytes already fed to `r.checksum`, and the sidecar file's content (`none`
models a failing `ioutil.ReadFile`). -/
structure ReaderSt where
  remaining : List Byte
  consumed : List Byte
  sidecar : Option (List Byte)
deriving DecidableEq

/-- `reader.validateChecksum`: recompute the digest of the bytes consumed so
far (`hashFn` models `r.checksum.Sum(nil)` over them), load the sidecar, and
compare with the store's `areChecksumsEqual`. -/
def validateChecksum (hashFn : List Byte → List Byte)
    (eq : List Byte → List Byte → Bool) (r : ReaderSt) : Option ReadErr :=
  let actual := hashFn r.consumed
  match r.sidecar with
  | none => some ReadErr.checksumReadError
  | some expected =>
    if eq expected actual then none else some ReadErr.checksumMismatch

/-- `reader.Read` on a buffer of size `bufSize`: returns the byte count, the
error slot (`none` = nil), and the next reader state.  When the data file is
exhausted, `os.File.Read` yields `(0, io.EOF)` and the reader validates the
checksum before reporting EOF, returning the validation error instead when it
fails; otherwise it delivers the next `min bufSize remaining` bytes and hashes
exactly the bytes delivered. -/
def readStep (hashFn : List Byte → List Byte)
    (eq : List Byte → List Byte → Bool) (bufSize : Nat) (r : ReaderSt) :
    Nat × Option ReadErr × ReaderSt :=
  match r.remaining with
  | [] =>
    match validateChecksum hashFn eq r with
    | some e => (0, some e, r)
    | none => (0, some ReadErr.eof, r)
  | _ :: _ =>
    let n := min bufSize r.remaining.length
    (n, none,
      { r with
        remaining := r.remaining.drop n
        consumed := r.consumed ++ r.remaining.take n })

/-- `reader.Close`: close the file then run the same checksum validation. -/
def closeStep (hashFn : List Byte → List Byte)
    (eq : List Byte → List Byte → Bool) (r : ReaderSt) : Option ReadErr :=
  validateChecksum hashFn eq r

/-! ## store package: version selection (openReader, Time option) -/

/-- The selector installed by the `store.Time(t)` reader option: scan the
version list in order and return the first whose time equals `t`, or a
version-not-found error when none matches. -/
def chooseVersionByTime (t : Nat) : List Version → Except StoreErr Version
  | [] => Except.error (StoreErr.versionNotFound "version not found")
  | v :: rest =>
    if v.time = t then Except.ok v else chooseVersionByTime t rest

/-- The default selector built in `openReader`: the last element of the
version list (`versions[len(versions)-1]`); the empty case cannot be reached
behind `openReader`'s emptiness guard and maps to the same not-found error. -/
def defaultChooseVersion (versions : List Version) : Except StoreErr Version :=
  match versions.getLast? with
  | some v => Except.ok v
  | none => Except.error (StoreErr.versionNotFound "no version found")

/-- `openReader`'s version resolution: an empty version list is reported as
"no version found" before any selector runs; otherwise the configured
selector (default when no `Time` option was given) is applied. -/
def resolveReadVersion (choose : Option (List Version → Except StoreErr Version))
    (versions : List Version) : Except StoreErr Version :=
  if versions.isEmpty then
    Except.error (StoreErr.versionNotFound "no version found")
  else (choose.getD defaultChooseVersion) versions

/-! ## store package: Open, options and DeleteVersion -/

/-- The options `store.Open` recognises; `nilOption` models a nil entry in
the variadic slice, which Open skips. -/
inductive StoreOption where
  | failWhenMissingDir
  | noIntegrityCheck
  | nilOption
deriving DecidableEq

/-- Which `areChecksumsEqual` function a Store holds: the default comparison
from `Open`, or the always-true one from `NoIntegrityCheck`. -/
inductive ChecksumEqMode where
  | strict
  | disabled
deriving DecidableEq

/-- The comparison function a mode stands for. -/
def checksumEqOfMode : ChecksumEqMode → (List Byte → List Byte → Bool)
  | ChecksumEqMode.strict => areChecksumsEqualDefault
  | ChecksumEqMode.disabled => areChecksumsEqualDisabled

/-- The configuration part of `store.Store`. -/
structure Store where
  failWhenMissingDir : Bool
  checksumMode : ChecksumEqMode
deriving DecidableEq

/-- The Store literal built at the top of `store.Open`, before options. -/
def initialStore : Store :=
  { failWhenMissingDir := false, checksumMode := ChecksumEqMode.strict }

/-- Applying one option to the Store under construction (none can fail). -/
def applyStoreOption (s : Store) : StoreOption → Store
  | StoreOption.failWhenMissingDir => { s with failWhenMissingDir := true }
  | StoreOption.noIntegrityCheck => { s with checksumMode := ChecksumEqMode.disabled }
  | StoreOption.nilOption => s

/-- What `os.Lstat` of the store directory can report. -/
inductive DirStat where
  | missing
  | isDir
  | notDir
deriving DecidableEq

/-- `store.Open`: reject an empty path, apply the options, then switch on the
directory's status — a missing directory is an error under
`FailWhenMissingDir` and is created with `MkdirAll` otherwise.  The `Bool`
component records whether `MkdirAll` ran (whether anything was created). -/
def openStore (dirName : String) (stat : DirStat) (opts : List StoreOption) :
    Except String Store × Bool :=
  if dirName = "" then
    (Except.error "dir is empty: must be a valid directory path", false)
  else
    let s := opts.foldl applyStoreOption initialStore
    match stat with
    | DirStat.missing =>
      if s.failWhenMissingDir then
        (Except.error ("store directory " ++ dirName ++ " does not exist"), false)
      else (Except.ok s, true)
    | DirStat.isDir => (Except.ok s, false)
    | DirStat.notDir => (Except.error (dirName ++ " is not a directory"), false)

/-- `os.Remove` over a directory listing: drop the name, and report whether
it existed (removing a missing name is the `IsNotExist` case). -/
def removeFile (fs : List String) (name : String) : List String × Bool :=
  (fs.filter (fun f => decide (f ≠ name)), decide (name ∈ fs))

/-- `Store.DeleteVersion` body: remove the data file then the sidecar file in
that order, returning a version-not-found error as soon as a removal hits a
missing file; removals already performed are not rolled back.  The file names
are parameters because `dataFilename`/`checksumFileForDataFile` (pure
name-derivation helpers) are defined outside the given sources. -/
def deleteVersion (fs : List String) (dataFile checksumFile : String) :
    List String × Option StoreErr :=
  let r1 := removeFile fs dataFile
  if r1.2 = false then
    (r1.1, some (StoreErr.versionNotFound "version does not exist"))
  else
    let r2 := removeFile r1.1 checksumFile
    if r2.2 = false then
      (r2.1, some (StoreErr.versionNotFound "version does not exist"))
    else (r2.1, none)

/-! ## store package: metrics -/

/-- `store.ReadMetrics`: the fields the given sources update. -/
structure ReadMetrics where
  readerCalls : Nat
  totalBytesRead : Nat
  totalTime : Nat
deriving DecidableEq

/-- `store.WriteMetrics`: the field the given sources update. -/
structure WriteMetrics where
  writerCalls : Nat
deriving DecidableEq

/-- `store.Metrics`. -/
structure Metrics where
  read : ReadMetrics
  write : WriteMetrics
deriving DecidableEq

/-- The metrics-touching events of a Writer/Reader/Read/Close sequence:
`Store.Writer` increments WriterCalls, `Store.Reader` increments ReaderCalls,
a normal `reader.Read` adds its byte count and elapsed time, a `Read` that
returns early on checksum failure adds only its elapsed time (the deferred
`addElapsedTime` still runs), and `reader.Close` adds its elapsed time. -/
inductive MetricsOp where
  | openWriter
  | openReader
  | readDelivered (n elapsed : Nat)
  | readFailedValidation (elapsed : Nat)
  | closeCall (elapsed : Nat)
deriving DecidableEq

/-- How one event updates the Store's metrics. -/
def applyMetricsOp (m : Metrics) : MetricsOp → Metrics
  | MetricsOp.openWriter =>
    { m with write := { writerCalls := m.write.writerCalls + 1 } }
  | MetricsOp.openReader =>
    { m with read := { m.read with readerCalls := m.read.readerCalls + 1 } }
  | MetricsOp.readDelivered n t =>
    { m with read :=
      { m.read with
        totalBytesRead := m.read.totalBytesRead + n
        totalTime := m.read.totalTime + t } }
  | MetricsOp.readFailedValidation t =>
    { m with read := { m.read with totalTime := m.read.totalTime + t } }
  | MetricsOp.closeCall t =>
    { m with read := { m.read with totalTime := m.read.totalTime + t } }

/-- Running a whole sequence of events over the Store's metrics. -/
def runMetrics (m : Metrics) (ops : List MetricsOp) : Metrics :=
  ops.foldl applyMetricsOp m

/-- Componentwise order on metrics: every counter of the first is at most the
corresponding counter of the second. -/
def MetricsLe (m1 m2 : Metrics) : Prop :=
  m1.write.writerCalls ≤ m2.write.writerCalls ∧
  m1.read.readerCalls ≤ m2.read.readerCalls ∧
  m1.read.totalBytesRead ≤ m2.read.totalBytesRead ∧
  m1.read.totalTime ≤ m2.read.totalTime

/-! ## deebee package (older generation): Open, options, next version name -/

/-- An abstract `FileIntegrityChecker` identity (its behaviour is irrelevant
to configuration-time claims). -/
abbrev Checker := Nat

/-- The options the older `deebee.Open` recognises: `IntegrityChecker(c)` and
a nil entry in the slice (skipped). -/
inductive DBOption where
  | integrityChecker (c : Checker)
  | nilOption
deriving DecidableEq

/-- Whether an option sets the file-integrity checker. -/
def DBOption.isSetter : DBOption → Bool
  | DBOption.integrityChecker _ => true
  | DBOption.nilOption => false

/-- The configuration part of `deebee.DB`. -/
structure DB where
  fileIntegrityChecker : Option Checker
deriving DecidableEq

/-- The checker installed by `ChecksumIntegrityChecker()` when none was set. -/
def defaultChecker : Checker := 0

/-- `DB.setFileIntegrityChecker`: error when one is already configured. -/
def setFileIntegrityChecker (db : DB) (c : Checker) : Except String DB :=
  match db.fileIntegrityChecker with
  | some _ => Except.error "FileIntegrityChecker configured twice"
  | none => Except.ok { fileIntegrityChecker := some c }

/-- Applying one option to the DB under construction. -/
def applyDBOption (db : DB) : DBOption → Except String DB
  | DBOption.integrityChecker c => setFileIntegrityChecker db c
  | DBOption.nilOption => Except.ok db

/-- `deebee.Open`'s option loop: apply options in order, stopping at the
first error. -/
def applyDBOptions (db : DB) : List DBOption → Except String DB
  | [] => Except.ok db
  | o :: rest =>
    match applyDBOption db o with
    | Except.error e => Except.error e
    | Except.ok db2 => applyDBOptions db2 rest

/-- `DB.useDefaultFileIntegrityCheckerIfNotSet`. -/
def useDefaultFileIntegrityCheckerIfNotSet (db : DB) : DB :=
  match db.fileIntegrityChecker with
  | some _ => db
  | none => { fileIntegrityChecker := some defaultChecker }

/-- `deebee.Open`: fail when the directory does not exist, apply the options
(wrapping an option's error), then fall back to the default checker. -/
def dbOpen (dirExists : Bool) (opts : List DBOption) : Except String DB :=
  if dirExists = false then Except.error "database dir not found"
  else
    match applyDBOptions { fileIntegrityChecker := none } opts with
    | Except.error e => Except.error ("applying option failed: " ++ e)
    | Except.ok db => Except.ok (useDefaultFileIntegrityCheckerIfNotSet db)

/-- Modelled from the spec: the data-file name parser behind
`filterDatafiles` (not among the given sources).  §4.1: a discovered name
parses back to its version exactly when it matches the all-digits data-file
pattern; sidecar files (dot-extension) and incidental entries parse to
nothing and are filtered out. -/
def parseVersionNumber (name : String) : Option Nat :=
  let cs := name.toList
  if cs ≠ [] ∧ cs.all Char.isDigit then
    some (cs.foldl (fun acc c => acc * 10 + (c.toNat - 48)) 0)
  else none

/-- Modelled from the spec: `filterDatafiles` keeps the discovered names that
are data files, as their parsed version numbers. -/
def filterDatafiles (files : List String) : List Nat :=
  files.filterMap parseVersionNumber

/-- Modelled from the spec: `youngestFilename` — the chronologically latest
(largest) version among the data files, when any exists. -/
def youngestFilename (datafiles : List Nat) : Option Nat :=
  datafiles.max?

/-- Modelled from the spec: `generateFilename` serializes a version number as
its decimal name (the first name being "0"). -/
def generateFilename (version : Nat) : String :=
  toString version

/-- `DB.nextVersionFilename`: "0" when no data file exists, otherwise the
serialized successor of the latest existing version. -/
def nextVersionFilename (files : List String) : String :=
  match youngestFilename (filterDatafiles files) with
  | none => "0"
  | some m => generateFilename (m + 1)

end Deebee

/-- C3: a fresh FNV-128a Sum updated with the bytes "data" marshals to the
digest whose hex encoding is 695b598c64757277b806e9704d5d6a5d, and updating
with "da" then "ta" in two separate updates marshals to the identical digest
(incremental update equals a single update on the concatenation). -/
theorem Deebee.fnv128a_data_digest :
    Deebee.hexEncode (Deebee.fnv128aMarshal
        (Deebee.fnv128aUpdate Deebee.fnvOffset128a (Deebee.strBytes "data")))
      = "695b598c64757277b806e9704d5d6a5d" ∧
    Deebee.fnv128aMarshal
        (Deebee.fnv128aUpdate
          (Deebee.fnv128aUpdate Deebee.fnvOffset128a (Deebee.strBytes "da"))
          (Deebee.strBytes "ta"))
      = Deebee.fnv128aMarshal
        (Deebee.fnv128aUpdate Deebee.fnvOffset128a (Deebee.strBytes "data")) := by
  constructor
  · decide
  · decide

/-- C1 evaluation: with integrity verification enabled (the default
comparison installed by store.Open) and the fnv128a digest, a sidecar whose
content is the literal bytes "ALTERED" differs from the digest recomputed
over the bytes read, yet Read at end-of-stream reports EOF with no
verification error: the default areChecksumsEqual accepts "ALTERED"
unconditionally, contradicting the claim that every differing sidecar is
reported. -/
theorem Deebee.altered_sidecar_skips_verification :
    Deebee.alteredBytes ≠ Deebee.fnv128aDigest (Deebee.strBytes "data") ∧
    Deebee.readStep Deebee.fnv128aDigest Deebee.areChecksumsEqualDefault 512
        ⟨[], Deebee.strBytes "data", some Deebee.alteredBytes⟩
      = (0, some Deebee.ReadErr.eof,
          ⟨[], Deebee.strBytes "data", some Deebee.alteredBytes⟩) := by
  constructor
  · decide
  · decide

/-- C2: when the data file reaches end-of-stream, reader.Read runs the digest
comparison before reporting end-of-stream: if the store's comparison rejects
the stored digest against the recomputed one, Read returns the
verification-failure error in place of EOF; if it accepts, Read returns EOF.
In both cases the reader state is unchanged, so bytes already delivered by
earlier Read calls are not retracted. -/
theorem Deebee.read_eof_checks_digest_first
    (hashFn : List Deebee.Byte → List Deebee.Byte)
    (eq : List Deebee.Byte → List Deebee.Byte → Bool) (bufSize : Nat)
    (r : Deebee.ReaderSt) (expected : List Deebee.Byte)
    (hrem : r.remaining = []) (hside : r.sidecar = some expected) :
    (eq expected (hashFn r.consumed) = false →
      Deebee.readStep hashFn eq bufSize r
        = (0, some Deebee.ReadErr.checksumMismatch, r)) ∧
    (eq expected (hashFn r.consumed) = true →
      Deebee.readStep hashFn eq bufSize r = (0, some Deebee.ReadErr.eof, r)) := by
  constructor <;> intro h <;>
    simp [Deebee.readStep, Deebee.validateChecksum, hrem, hside, h]

/-- Witness for C2 at a concrete input: an exhausted reader over "data" whose
sidecar holds the single byte 0 fails with the checksum-mismatch error
instead of EOF. -/
theorem Deebee.read_eof_checks_digest_first_witness :
    Deebee.readStep Deebee.fnv128aDigest Deebee.areChecksumsEqualDefault 64
        ⟨[], Deebee.strBytes "data", some [0]⟩
      = (0, some Deebee.ReadErr.checksumMismatch,
          ⟨[], Deebee.strBytes "data", some [0]⟩) :=
  (Deebee.read_eof_checks_digest_first Deebee.fnv128aDigest
    Deebee.areChecksumsEqualDefault 64
    ⟨[], Deebee.strBytes "data", some [0]⟩ [0] rfl rfl).1 (by decide)

/-- Helper: in a version list sorted oldest-first (non-decreasing time), the
last element's time bounds every element's time. -/
theorem Deebee.time_le_of_getLast_sorted :
    ∀ (l : List Deebee.Version) (v : Deebee.Version),
      List.Sorted (fun a b : Deebee.Version => a.time ≤ b.time) l →
      l.getLast? = some v → ∀ u ∈ l, u.time ≤ v.time
  | [], _, _, h => by simp at h
  | [a], v, _, h => by
    simp only [List.getLast?_singleton, Option.some.injEq] at h
    intro u hu
    simp only [List.mem_singleton] at hu
    simp [hu, h]
  | a :: b :: tl, v, hs, h => by
    rw [List.getLast?_cons_cons] at h
    intro u hu
    rcases List.mem_cons.mp hu with rfl | hu2
    · exact List.rel_of_sorted_cons hs v (List.mem_of_getLast?_eq_some h)
    · exact Deebee.time_le_of_getLast_sorted (b :: tl) v hs.of_cons h u hu2

/-- C4: on a non-empty version list sorted oldest-first, a Reader opened with
no version-selector option resolves to the last element of the list, which is
the chronologically newest (its time bounds every version's time). -/
theorem Deebee.default_reader_picks_newest (versions : List Deebee.Version)
    (v : Deebee.Version) (hlast : versions.getLast? = some v)
    (hsorted : List.Sorted (fun a b : Deebee.Version => a.time ≤ b.time) versions) :
    Deebee.resolveReadVersion none versions = Except.ok v ∧
    ∀ u ∈ versions, u.time ≤ v.time := by
  have hne : versions ≠ [] := by
    intro he
    rw [he] at hlast
    simp at hlast
  constructor
  · have hemp : versions.isEmpty = false := by
      simp [List.isEmpty_iff, hne]
    simp [Deebee.resolveReadVersion, hemp, Deebee.defaultChooseVersion, hlast]
  · exact Deebee.time_le_of_getLast_sorted versions v hsorted hlast

/-- Witness for C4: on the sorted two-version list with times 1 and 5, the
default Reader resolves to the version with time 5. -/
theorem Deebee.default_reader_picks_newest_witness :
    Deebee.resolveReadVersion none [⟨1, 10⟩, ⟨5, 20⟩] = Except.ok ⟨5, 20⟩ :=
  (Deebee.default_reader_picks_newest [⟨1, 10⟩, ⟨5, 20⟩] ⟨5, 20⟩
    (by decide) (by decide)).1

/-- C5: the Time(t) selector returns the version whose time exactly equals
the supplied timestamp when one exists (under the version-time uniqueness
invariant), and returns a version-not-found error when no version's time
equals it, however many versions exist. -/
theorem Deebee.time_selector_exact_or_not_found (t : Nat)
    (versions : List Deebee.Version) :
    (∀ v, v ∈ versions → v.time = t →
      List.Pairwise (fun a b : Deebee.Version => a.time ≠ b.time) versions →
      Deebee.chooseVersionByTime t versions = Except.ok v) ∧
    ((∀ u ∈ versions, u.time ≠ t) →
      Deebee.chooseVersionByTime t versions
        = Except.error (Deebee.StoreErr.versionNotFound "version not found")) := by
  induction versions with
  | nil =>
    constructor
    · intro v hv
      simp at hv
    · intro _
      rfl
  | cons a rest ih =>
    constructor
    · intro v hv hvt hpw
      rcases List.mem_cons.mp hv with rfl | hv2
      · simp [Deebee.chooseVersionByTime, hvt]
      · have hat : a.time ≠ t := by
          intro hae
          exact (List.pairwise_cons.mp hpw).1 v hv2 (hae.trans hvt.symm)
        simp only [Deebee.chooseVersionByTime, if_neg hat]
        exact ih.1 v hv2 hvt (List.pairwise_cons.mp hpw).2
    · intro hall
      have hat : a.time ≠ t := hall a (List.mem_cons_self a rest)
      simp only [Deebee.chooseVersionByTime, if_neg hat]
      exact ih.2 (fun u hu => hall u (List.mem_cons_of_mem a hu))

/-- Witness for C5: on versions with times 3 and 5, Time(5) picks the version
with time 5 and Time(9) fails with the version-not-found error. -/
theorem Deebee.time_selector_witness :
    Deebee.chooseVersionByTime 5 [⟨3, 10⟩, ⟨5, 20⟩] = Except.ok ⟨5, 20⟩ ∧
    Deebee.chooseVersionByTime 9 [⟨3, 10⟩, ⟨5, 20⟩]
      = Except.error (Deebee.StoreErr.versionNotFound "version not found") :=
  ⟨(Deebee.time_selector_exact_or_not_found 5 [⟨3, 10⟩, ⟨5, 20⟩]).1 ⟨5, 20⟩
      (by decide) (by decide) (by decide),
    (Deebee.time_selector_exact_or_not_found 9 [⟨3, 10⟩, ⟨5, 20⟩]).2 (by decide)⟩

/-- C6: the version name a writer allocates is "0" when no data file exists,
and otherwise the serialization of the latest existing version number plus
one — a version strictly after every existing data-file version. -/
theorem Deebee.next_version_after_latest (files : List String) :
    (Deebee.filterDatafiles files = [] →
      Deebee.nextVersionFilename files = "0") ∧
    (∀ m, (Deebee.filterDatafiles files).max? = some m →
      Deebee.nextVersionFilename files = Deebee.generateFilename (m + 1) ∧
      m ∈ Deebee.filterDatafiles files ∧
      ∀ v ∈ Deebee.filterDatafiles files, v < m + 1) := by
  constructor
  · intro h
    simp [Deebee.nextVersionFilename, Deebee.youngestFilename, h]
  · intro m hm
    refine ⟨?_, ?_, ?_⟩
    · simp [Deebee.nextVersionFilename, Deebee.youngestFilename, hm]
    · exact (List.max?_eq_some_iff'.mp hm).1
    · intro v hv
      exact Nat.lt_succ_of_le ((List.max?_eq_some_iff'.mp hm).2 v hv)

/-- Witness for C6: among data files "3" and "7" (with a sidecar and a
non-version entry ignored), the next version name is "8". -/
theorem Deebee.next_version_after_latest_witness :
    Deebee.nextVersionFilename ["3", "7", "7.fnv128a", "tmp"]
      = Deebee.generateFilename 8 :=
  ((Deebee.next_version_after_latest ["3", "7", "7.fnv128a", "tmp"]).2 7
    (by decide)).1

/-- Helper: once a checker is configured, any later attempt to set one makes
the option loop fail with the configured-twice error. -/
theorem Deebee.applyDBOptions_error_of_set :
    ∀ (opts : List Deebee.DBOption) (db : Deebee.DB) (c : Deebee.Checker),
      db.fileIntegrityChecker = some c →
      1 ≤ opts.countP Deebee.DBOption.isSetter →
      Deebee.applyDBOptions db opts
        = Except.error "FileIntegrityChecker configured twice"
  | [], _, _, _, hcount => by simp at hcount
  | Deebee.DBOption.integrityChecker c2 :: rest, db, c, hset, _ => by
    simp [Deebee.applyDBOptions, Deebee.applyDBOption,
      Deebee.setFileIntegrityChecker, hset]
  | Deebee.DBOption.nilOption :: rest, db, c, hset, hcount => by
    have hcc : (Deebee.DBOption.nilOption :: rest).countP Deebee.DBOption.isSetter
        = rest.countP Deebee.DBOption.isSetter := by
      simp [List.countP_cons, Deebee.DBOption.isSetter]
    rw [hcc] at hcount
    simp only [Deebee.applyDBOptions, Deebee.applyDBOption]
    exact Deebee.applyDBOptions_error_of_set rest db c hset hcount

/-- Helper: an option list that sets the checker at least twice always makes
the option loop fail with the configured-twice error. -/
theorem Deebee.applyDBOptions_error_of_two_setters :
    ∀ (opts : List Deebee.DBOption) (db : Deebee.DB),
      2 ≤ opts.countP Deebee.DBOption.isSetter →
      Deebee.applyDBOptions db opts
        = Except.error "FileIntegrityChecker configured twice"
  | [], _, hcount => by simp at hcount
  | Deebee.DBOption.integrityChecker c2 :: rest, db, hcount => by
    have hcc : (Deebee.DBOption.integrityChecker c2 :: rest).countP
          Deebee.DBOption.isSetter
        = rest.countP Deebee.DBOption.isSetter + 1 := by
      simp [List.countP_cons, Deebee.DBOption.isSetter]
    rw [hcc] at hcount
    match hdb : db.fileIntegrityChecker with
    | some c =>
      simp [Deebee.applyDBOptions, Deebee.applyDBOption,
        Deebee.setFileIntegrityChecker, hdb]
    | none =>
      simp only [Deebee.applyDBOptions, Deebee.applyDBOption,
        Deebee.setFileIntegrityChecker, hdb]
      exact Deebee.applyDBOptions_error_of_set rest
        { fileIntegrityChecker := some c2 } c2 rfl (by omega)
  | Deebee.DBOption.nilOption :: rest, db, hcount => by
    have hcc : (Deebee.DBOption.nilOption :: rest).countP Deebee.DBOption.isSetter
        = rest.countP Deebee.DBOption.isSetter := by
      simp [List.countP_cons, Deebee.DBOption.isSetter]
    rw [hcc] at hcount
    simp only [Deebee.applyDBOptions, Deebee.applyDBOption]
    exact Deebee.applyDBOptions_error_of_two_setters rest db hcount

/-- C7: when the options passed to the older deebee.Open set the
file-integrity checker more than once, Open fails with the configuration
error (so no DB handle is returned), even though the directory exists. -/
theorem Deebee.open_rejects_double_checker (opts : List Deebee.DBOption)
    (h : 2 ≤ opts.countP Deebee.DBOption.isSetter) :
    Deebee.dbOpen true opts
      = Except.error
          "applying option failed: FileIntegrityChecker configured twice" := by
  have herr := Deebee.applyDBOptions_error_of_two_setters opts
    { fileIntegrityChecker := none } h
  simp [Deebee.dbOpen, herr]

/-- Witness for C7: two IntegrityChecker options make Open fail. -/
theorem Deebee.open_rejects_double_checker_witness :
    Deebee.dbOpen true
        [Deebee.DBOption.integrityChecker 0, Deebee.DBOption.integrityChecker 1]
      = Except.error
          "applying option failed: FileIntegrityChecker configured twice" :=
  Deebee.open_rejects_double_checker _ (by decide)

/-- Helper: no option resets the fail-when-missing flag once set. -/
theorem Deebee.fail_flag_stays_true :
    ∀ (opts : List Deebee.StoreOption) (s : Deebee.Store),
      s.failWhenMissingDir = true →
      (opts.foldl Deebee.applyStoreOption s).failWhenMissingDir = true
  | [], s, h => h
  | o :: rest, s, h => by
    have hstep : (Deebee.applyStoreOption s o).failWhenMissingDir = true := by
      cases o <;> simp [Deebee.applyStoreOption, h]
    exact Deebee.fail_flag_stays_true rest (Deebee.applyStoreOption s o) hstep

/-- Helper: the fail-when-missing flag of the built Store is set exactly when
the FailWhenMissingDir option occurs in the list. -/
theorem Deebee.fail_flag_of_opts :
    ∀ (opts : List Deebee.StoreOption) (s : Deebee.Store),
      (Deebee.StoreOption.failWhenMissingDir ∈ opts →
        (opts.foldl Deebee.applyStoreOption s).failWhenMissingDir = true) ∧
      (Deebee.StoreOption.failWhenMissingDir ∉ opts →
        (opts.foldl Deebee.applyStoreOption s).failWhenMissingDir
          = s.failWhenMissingDir)
  | [], s => by
    constructor
    · intro h
      simp at h
    · intro _
      rfl
  | o :: rest, s => by
    constructor
    · intro h
      rcases List.mem_cons.mp h with rfl | h2
      · exact Deebee.fail_flag_stays_true rest _ (by simp [Deebee.applyStoreOption])
      · by_cases ho : o = Deebee.StoreOption.failWhenMissingDir
        · subst ho
          exact Deebee.fail_flag_stays_true rest _ (by simp [Deebee.applyStoreOption])
        · exact (Deebee.fail_flag_of_opts rest (Deebee.applyStoreOption s o)).1 h2
    · intro h
      have ho : o ≠ Deebee.StoreOption.failWhenMissingDir := by
        intro he
        exact h (he ▸ List.mem_cons_self o rest)
      have h2 : Deebee.StoreOption.failWhenMissingDir ∉ rest := by
        intro hm
        exact h (List.mem_cons_of_mem o hm)
      have hkeep : (Deebee.applyStoreOption s o).failWhenMissingDir
          = s.failWhenMissingDir := by
        cases o with
        | failWhenMissingDir => exact absurd rfl ho
        | noIntegrityCheck => rfl
        | nilOption => rfl
      rw [List.foldl_cons, (Deebee.fail_flag_of_opts rest _).2 h2, hkeep]

/-- C8: opening a store whose directory is missing fails with a construction
error and creates nothing when the FailWhenMissingDir option is present, and
auto-creates the directory and succeeds when it is absent. -/
theorem Deebee.open_missing_dir_behavior (dirName : String)
    (opts : List Deebee.StoreOption) (hd : dirName ≠ "") :
    (Deebee.StoreOption.failWhenMissingDir ∈ opts →
      Deebee.openStore dirName Deebee.DirStat.missing opts
        = (Except.error ("store directory " ++ dirName ++ " does not exist"),
            false)) ∧
    (Deebee.StoreOption.failWhenMissingDir ∉ opts →
      Deebee.openStore dirName Deebee.DirStat.missing opts
        = (Except.ok (opts.foldl Deebee.applyStoreOption Deebee.initialStore),
            true)) := by
  constructor
  · intro hmem
    have hf := (Deebee.fail_flag_of_opts opts Deebee.initialStore).1 hmem
    simp [Deebee.openStore, hd, hf]
  · intro hnmem
    have hf : (opts.foldl Deebee.applyStoreOption Deebee.initialStore).failWhenMissingDir
        = false :=
      (Deebee.fail_flag_of_opts opts Deebee.initialStore).2 hnmem
    simp [Deebee.openStore, hd, hf]

/-- Witness for C8: with a missing directory, FailWhenMissingDir makes Open
fail without creating anything, and no options make it create and succeed. -/
theorem Deebee.open_missing_dir_behavior_witness :
    Deebee.openStore "db" Deebee.DirStat.missing
        [Deebee.StoreOption.failWhenMissingDir]
      = (Except.error ("store directory " ++ "db" ++ " does not exist"),
          false) ∧
    Deebee.openStore "db" Deebee.DirStat.missing []
      = (Except.ok Deebee.initialStore, true) :=
  ⟨(Deebee.open_missing_dir_behavior "db" [Deebee.StoreOption.failWhenMissingDir]
      (by decide)).1 (by decide),
    (Deebee.open_missing_dir_behavior "db" [] (by decide)).2 (by decide)⟩

/-- Helper: one metrics event never decreases any counter. -/
theorem Deebee.applyMetricsOp_le (m : Deebee.Metrics) (op : Deebee.MetricsOp) :
    Deebee.MetricsLe m (Deebee.applyMetricsOp m op) := by
  cases op <;> simp [Deebee.applyMetricsOp, Deebee.MetricsLe]

/-- Helper: the componentwise metrics order is transitive. -/
theorem Deebee.metricsLe_trans {a b c : Deebee.Metrics}
    (h1 : Deebee.MetricsLe a b) (h2 : Deebee.MetricsLe b c) :
    Deebee.MetricsLe a c := by
  obtain ⟨h11, h12, h13, h14⟩ := h1
  obtain ⟨h21, h22, h23, h24⟩ := h2
  exact ⟨le_trans h11 h21, le_trans h12 h22, le_trans h13 h23,
    le_trans h14 h24⟩

/-- C9: across any sequence of Writer/Reader/Read/Close events on one Store,
every metrics counter (writer-open count, reader-open count, total bytes
read, cumulative read/close time) never decreases. -/
theorem Deebee.metrics_monotone (ops : List Deebee.MetricsOp) :
    ∀ m : Deebee.Metrics, Deebee.MetricsLe m (Deebee.runMetrics m ops) := by
  induction ops with
  | nil =>
    intro m
    exact ⟨le_refl _, le_refl _, le_refl _, le_refl _⟩
  | cons op rest ih =>
    intro m
    exact Deebee.metricsLe_trans (Deebee.applyMetricsOp_le m op)
      (ih (Deebee.applyMetricsOp m op))

/-- C10: when the data file of a version exists but its checksum sidecar does
not, DeleteVersion removes the data file and then reports a version-not-found
error: the store's state has changed (the data file is gone) even though an
error is returned. -/
theorem Deebee.delete_version_missing_sidecar (fs : List String)
    (dataFile checksumFile : String)
    (hdata : dataFile ∈ fs) (hside : checksumFile ∉ fs) :
    (Deebee.deleteVersion fs dataFile checksumFile).2
      = some (Deebee.StoreErr.versionNotFound "version does not exist") ∧
    dataFile ∉ (Deebee.deleteVersion fs dataFile checksumFile).1 := by
  constructor
  · simp [Deebee.deleteVersion, Deebee.removeFile, hdata, hside]
  · simp [Deebee.deleteVersion, Deebee.removeFile, hdata, hside, List.mem_filter]

/-- Witness for C10: with only the data file "5" on disk and its sidecar
"5.fnv128a" missing, DeleteVersion reports the not-found error. -/
theorem Deebee.delete_version_missing_sidecar_witness :
    (Deebee.deleteVersion ["5"] "5" "5.fnv128a").2
      = some (Deebee.StoreErr.versionNotFound "version does not exist") :=
  (Deebee.delete_version_missing_sidecar ["5"] "5" "5.fnv128a"
    (by decide) (by decide)).1
